import Mathlib

/-!
Verification of the `element` repository's request/response messaging core
(packages/element-schedular) and of two utility classes from packages/core
(`Browser`, `Runner`), against its natural-language specification.

The messaging-core implementation (ThreadConnection, WorkerConnection,
dispatcher) is not present under src/ — only its test file is — so those
components are modelled from the specification (§3–§4.4, §7): each such
definition carries a doc comment starting `Modelled from the spec:`.
`Browser.ts` and `Runner.ts` are present in src/ and are embedded directly.
-/

/-- Modelled from the spec: the four envelope kinds of the wire protocol
(§3, §6): `Request | Response | Error | Complete`.  A `request`/`response`
carries a payload of type `P`, an `error` carries an error description of
type `E`, and `complete` carries only the correlation id. -/
inductive Envelope (P E : Type) where
  | request (correlationId : Nat) (payload : P)
  | response (correlationId : Nat) (payload : P)
  | error (correlationId : Nat) (e : E)
  | complete (correlationId : Nat)
deriving DecidableEq

/-- Modelled from the spec: every envelope carries a correlation id (§3). -/
def Envelope.correlationId {P E : Type} : Envelope P E → Nat
  | .request id _ => id
  | .response id _ => id
  | .error id _ => id
  | .complete id => id

/-- Modelled from the spec: connection lifecycle states
`Open → Closing → Closed` (§3). -/
inductive ConnState where
  | opened
  | closing
  | closed
deriving DecidableEq

/-- Modelled from the spec: a delivery to a caller of `send()` — the
single resolution or rejection of one pending request's promise
(§4.3 rules 4–6, §7). -/
inductive Outcome (P E : Type) where
  | resolved (correlationId : Nat) (payloads : List P)
  | rejected (correlationId : Nat) (e : E)
  | rejectedClosed (correlationId : Nat)
deriving DecidableEq

/-- Modelled from the spec: the requester-side peer (§4.3).  `pending` maps
each outstanding correlation id to its accumulator (the ordered list of
payloads received so far); `nextId` is the monotonic correlation-id
counter (§4.1). -/
structure RequesterConnection (P E : Type) where
  nextId : Nat
  pending : List (Nat × List P)
  state : ConnState
deriving DecidableEq

/-- Modelled from the spec: `send(request)` allocates a correlation id,
registers a PendingRequest with an empty accumulator, and emits a
`Request` envelope (§4.3 rules 1–2). -/
def RequesterConnection.send {P E : Type} (c : RequesterConnection P E) (req : P) :
    RequesterConnection P E × Envelope P E :=
  ({ c with
      nextId := c.nextId + 1
      pending := c.pending ++ [(c.nextId, [])] },
   Envelope.request c.nextId req)

/-- Modelled from the spec: processing of one inbound envelope by the
requester (§4.3 rules 3–5, §4.1, §7).  Envelopes received after `Closed`
are silently dropped; an envelope whose correlation id has no pending
tracker is an orphan, logged and dropped, never raised to a caller. -/
def RequesterConnection.recv {P E : Type} (c : RequesterConnection P E)
    (env : Envelope P E) : RequesterConnection P E × List (Outcome P E) :=
  if c.state = ConnState.closed then (c, [])
  else
    match env with
    | .request _ _ => (c, [])
    | .response id p =>
      if (c.pending.find? fun t => t.1 = id).isSome then
        ({ c with
            pending := c.pending.map fun t =>
              if t.1 = id then (t.1, t.2 ++ [p]) else t }, [])
      else (c, [])
    | .complete id =>
      match c.pending.find? fun t => t.1 = id with
      | some t =>
        ({ c with pending := c.pending.filter fun u => u.1 ≠ id },
         [Outcome.resolved id t.2])
      | none => (c, [])
    | .error id e =>
      if (c.pending.find? fun t => t.1 = id).isSome then
        ({ c with pending := c.pending.filter fun u => u.1 ≠ id },
         [Outcome.rejected id e])
      else (c, [])

/-- Modelled from the spec: `close()` is idempotent; it transitions the
state to `Closed` and rejects every pending request with a
connection-closed error, exactly once per pending request (§4.1, §4.3
rule 6). -/
def RequesterConnection.close {P E : Type} (c : RequesterConnection P E) :
    RequesterConnection P E × List (Outcome P E) :=
  if c.state = ConnState.closed then (c, [])
  else
    ({ c with state := ConnState.closed, pending := [] },
     c.pending.map fun t => Outcome.rejectedClosed t.1)

/-- Modelled from the spec: the responder-side peer's handling of one
inbound envelope given the caller-supplied handler (§4.2).  Returns the
emitted envelopes together with the list of payloads the handler was
invoked with.  On handler success it emits a `Response` envelope carrying
the handler output followed by one `Complete` envelope; on handler
failure a single `Error` envelope, which is itself terminal. -/
def ResponderConnection.handle {P E : Type} (handler : P → Except E P)
    (env : Envelope P E) : List (Envelope P E) × List P :=
  match env with
  | .request id payload =>
    match handler payload with
    | .ok out => ([Envelope.response id out, Envelope.complete id], [payload])
    | .error e => ([Envelope.error id e], [payload])
  | _ => ([], [])

/-- Modelled from the spec: a requester processing a sequence of inbound
envelopes in transport order (§5), accumulating the outcomes delivered to
callers. -/
def RequesterConnection.processAll {P E : Type} (c : RequesterConnection P E)
    (envs : List (Envelope P E)) : RequesterConnection P E × List (Outcome P E) :=
  envs.foldl (fun acc env =>
    let r := acc.1.recv env
    (r.1, acc.2 ++ r.2)) (c, [])

/-- Modelled from the spec: a freshly constructed requester connection —
no outstanding requests, state `Open` (§4.3). -/
def RequesterConnection.init (P E : Type) : RequesterConnection P E :=
  { nextId := 0, pending := [], state := ConnState.opened }

/-- The handler of the round-trip test: returns "Hi" for every request. -/
def helloHandler : String → Except String String := fun _ => Except.ok "Hi"

/-- Claim C1: sending "Hello World" to a responder whose handler returns "Hi"
resolves the requester's send() with exactly ["Hi"], and the handler is
invoked with exactly the payload "Hello World". -/
theorem C1_round_trip :
    (ResponderConnection.handle helloHandler
        (RequesterConnection.send (RequesterConnection.init String String)
          "Hello World").2).2
      = ["Hello World"] ∧
    (RequesterConnection.processAll
        (RequesterConnection.send (RequesterConnection.init String String)
          "Hello World").1
        (ResponderConnection.handle helloHandler
          (RequesterConnection.send (RequesterConnection.init String String)
            "Hello World").2).1).2
      = [Outcome.resolved 0 ["Hi"]] := by
  constructor <;> rfl

/-- A connection whose state is `Closed` treats `close()` as a no-op. -/
theorem RequesterConnection.close_of_closed {P E : Type}
    (c : RequesterConnection P E) (h : c.state = ConnState.closed) :
    c.close = (c, []) := by
  unfold RequesterConnection.close
  simp [h]

/-- After `close()`, the state is `Closed`, whatever it was before. -/
theorem RequesterConnection.close_state_closed {P E : Type}
    (c : RequesterConnection P E) : c.close.1.state = ConnState.closed := by
  unfold RequesterConnection.close
  by_cases h : c.state = ConnState.closed
  · simp [h]
  · simp [h]

/-- A connection whose state is `Closed` silently drops every envelope. -/
theorem RequesterConnection.recv_of_closed {P E : Type}
    (c : RequesterConnection P E) (env : Envelope P E)
    (h : c.state = ConnState.closed) : c.recv env = (c, []) := by
  unfold RequesterConnection.recv
  simp [h]

/-- Claim C2: closing a connection with N outstanding requests rejects
each pending promise with a connection-closed error, exactly once per
pending request (the emitted outcomes are exactly one rejection per
tracker, and the tracker table is emptied so no second delivery can
occur), and no further envelope is processed afterward. -/
theorem C2_close_rejects_pending {P E : Type} (c : RequesterConnection P E)
    (h : ¬ c.state = ConnState.closed) :
    c.close.2 = c.pending.map (fun t => Outcome.rejectedClosed t.1) ∧
    c.close.1.state = ConnState.closed ∧
    c.close.1.pending = [] ∧
    ∀ env : Envelope P E, c.close.1.recv env = (c.close.1, []) := by
  refine ⟨?_, RequesterConnection.close_state_closed c, ?_, ?_⟩
  · unfold RequesterConnection.close
    simp [h]
  · unfold RequesterConnection.close
    simp [h]
  · intro env
    exact RequesterConnection.recv_of_closed _ env
      (RequesterConnection.close_state_closed c)

/-- A concrete connection with two outstanding requests, for the C2
witness. -/
def closeWitnessConn : RequesterConnection Nat Nat :=
  { nextId := 2, pending := [(0, []), (1, [])], state := ConnState.opened }

/-- Witness for C2 at a connection with two pending requests. -/
theorem C2_close_rejects_pending_witness :
    closeWitnessConn.close.2
      = [Outcome.rejectedClosed 0, Outcome.rejectedClosed 1] ∧
    closeWitnessConn.close.1.state = ConnState.closed ∧
    closeWitnessConn.close.1.pending = [] ∧
    closeWitnessConn.close.1.recv (Envelope.response 0 5)
      = (closeWitnessConn.close.1, []) :=
  ⟨(C2_close_rejects_pending closeWitnessConn (by decide)).1.trans (by decide),
   (C2_close_rejects_pending closeWitnessConn (by decide)).2.1,
   (C2_close_rejects_pending closeWitnessConn (by decide)).2.2.1,
   (C2_close_rejects_pending closeWitnessConn (by decide)).2.2.2
     (Envelope.response 0 5)⟩

/-- Claim C4: an envelope whose correlation id matches no pending tracker
is dropped: the connection state and every other pending request are left
exactly as they were, and no outcome (error or otherwise) is delivered to
any caller. -/
theorem C4_orphaned_envelope_dropped {P E : Type} (c : RequesterConnection P E)
    (env : Envelope P E)
    (h : ∀ t ∈ c.pending, t.1 ≠ env.correlationId) :
    c.recv env = (c, []) := by
  unfold RequesterConnection.recv
  by_cases hc : c.state = ConnState.closed
  · simp [hc]
  · cases env with
    | request id p => simp [hc]
    | response id p =>
      have hfind : (c.pending.find? fun t => t.1 = id) = none :=
        List.find?_eq_none.mpr fun t ht => by
          simpa [Envelope.correlationId] using h t ht
      simp [hc, hfind]
    | complete id =>
      have hfind : (c.pending.find? fun t => t.1 = id) = none :=
        List.find?_eq_none.mpr fun t ht => by
          simpa [Envelope.correlationId] using h t ht
      simp [hc, hfind]
    | error id e =>
      have hfind : (c.pending.find? fun t => t.1 = id) = none :=
        List.find?_eq_none.mpr fun t ht => by
          simpa [Envelope.correlationId] using h t ht
      simp [hc, hfind]

/-- Witness for C4: a reply with unrecognized correlation id 5 arriving at
a connection that only has id 0 pending is dropped without effect. -/
theorem C4_orphaned_envelope_dropped_witness :
    RequesterConnection.recv
      ({ nextId := 1, pending := [(0, [])], state := ConnState.opened }
        : RequesterConnection Nat Nat)
      (Envelope.response 5 7)
      = ({ nextId := 1, pending := [(0, [])], state := ConnState.opened }, []) :=
  C4_orphaned_envelope_dropped _ _ (by decide)

/-- Claim C6: `close()` is idempotent — closing an already-closed
connection is a no-op producing no outcomes; after any `close()` the state
is `Closed`; and every envelope received after `Closed` is silently
dropped. -/
theorem C6_close_idempotent {P E : Type} (c : RequesterConnection P E) :
    c.close.1.close = (c.close.1, []) ∧
    c.close.1.state = ConnState.closed ∧
    ∀ env : Envelope P E, c.close.1.recv env = (c.close.1, []) :=
  ⟨RequesterConnection.close_of_closed _ (RequesterConnection.close_state_closed c),
   RequesterConnection.close_state_closed c,
   fun env => RequesterConnection.recv_of_closed _ env
     (RequesterConnection.close_state_closed c)⟩

/-- Claim C3: a responder handling an inbound `Request` emits, on handler
success, a `Response` envelope carrying the handler output followed by
exactly one `Complete` envelope; on handler failure, a single `Error`
envelope and nothing else (in particular no separate `Complete`); and
every emitted envelope is tagged with the originating correlation id. -/
theorem C3_responder_emission {P E : Type} (handler : P → Except E P)
    (id : Nat) (payload : P) :
    (∀ out, handler payload = Except.ok out →
      (ResponderConnection.handle handler (Envelope.request id payload)).1
        = [Envelope.response id out, Envelope.complete id]) ∧
    (∀ e, handler payload = Except.error e →
      (ResponderConnection.handle handler (Envelope.request id payload)).1
        = [Envelope.error id e]) ∧
    (∀ env ∈ (ResponderConnection.handle handler (Envelope.request id payload)).1,
      env.correlationId = id) := by
  refine ⟨?_, ?_, ?_⟩
  · intro out hout
    unfold ResponderConnection.handle
    simp [hout]
  · intro e he
    unfold ResponderConnection.handle
    simp [he]
  · intro env henv
    cases hh : handler payload with
    | ok out =>
      simp only [ResponderConnection.handle, hh, List.mem_cons,
        List.not_mem_nil, or_false] at henv
      rcases henv with h | h <;> simp [h, Envelope.correlationId]
    | error e =>
      simp only [ResponderConnection.handle, hh, List.mem_cons,
        List.not_mem_nil, or_false] at henv
      simp [henv, Envelope.correlationId]

/-- The handler of the failure path: rejects every request. -/
def failingHandler : String → Except String String := fun _ => Except.error "boom"

/-- Witness for C3 at a succeeding and at a failing handler. -/
theorem C3_responder_emission_witness :
    (ResponderConnection.handle helloHandler (Envelope.request 7 "ping")).1
      = [Envelope.response 7 "Hi", Envelope.complete 7] ∧
    (ResponderConnection.handle failingHandler (Envelope.request 7 "ping")).1
      = [Envelope.error 7 "boom"] :=
  ⟨(C3_responder_emission helloHandler 7 "ping").1 "Hi" rfl,
   (C3_responder_emission failingHandler 7 "ping").2.1 "boom" rfl⟩

/-- Lemma: `find?` by one key is unaffected by filtering out a different key. -/
theorem find?_filter_ne {γ : Type} (l : List (Nat × γ)) (a b : Nat)
    (hab : b ≠ a) :
    ((l.filter fun u => u.1 ≠ a).find? fun t => t.1 = b)
      = l.find? fun t => t.1 = b := by
  induction l with
  | nil => rfl
  | cons x xs ih =>
    by_cases hx : x.1 = a
    · have hxb : ¬ x.1 = b := fun h => hab (h.symm.trans hx)
      have h1 : List.filter (fun u => u.1 ≠ a) (x :: xs)
          = List.filter (fun u => u.1 ≠ a) xs := by
        simp [List.filter_cons, hx]
      rw [h1, ih, List.find?_cons_of_neg _ (by simp [hxb])]
    · have h1 : List.filter (fun u => u.1 ≠ a) (x :: xs)
          = x :: List.filter (fun u => u.1 ≠ a) xs := by
        simp [List.filter_cons, hx]
      by_cases hxb : x.1 = b
      · rw [h1, List.find?_cons_of_pos _ (by simp [hxb]),
          List.find?_cons_of_pos _ (by simp [hxb])]
      · rw [h1, List.find?_cons_of_neg _ (by simp [hxb]), ih,
          List.find?_cons_of_neg _ (by simp [hxb])]

/-- A `Complete` envelope whose correlation id has a pending tracker
resolves that request with its accumulated payloads. -/
theorem recv_complete_of_find {P E : Type} (c : RequesterConnection P E)
    (b : Nat) (acc : List P)
    (hs : ¬ c.state = ConnState.closed)
    (hb : (c.pending.find? fun t => t.1 = b) = some (b, acc)) :
    (c.recv (Envelope.complete b)).2 = [Outcome.resolved b acc] := by
  unfold RequesterConnection.recv
  rw [if_neg hs]
  simp only [hb]

/-- Claim C5: a handler failure (an `Error` envelope) for one request
rejects only that request: the connection stays `Open`, a second
concurrent request's tracker and accumulator are untouched, and that
second request still resolves normally when its `Complete` arrives. -/
theorem C5_handler_failure_isolation {P E : Type} (c : RequesterConnection P E)
    (a b : Nat) (e : E) (acc : List P)
    (hopen : c.state = ConnState.opened)
    (ha : (c.pending.find? fun t => t.1 = a).isSome = true)
    (hab : b ≠ a)
    (hb : (c.pending.find? fun t => t.1 = b) = some (b, acc)) :
    (c.recv (Envelope.error a e)).2 = [Outcome.rejected a e] ∧
    (c.recv (Envelope.error a e)).1.state = ConnState.opened ∧
    ((c.recv (Envelope.error a e)).1.pending.find? fun t => t.1 = b)
      = some (b, acc) ∧
    ((c.recv (Envelope.error a e)).1.recv (Envelope.complete b)).2
      = [Outcome.resolved b acc] := by
  have hstate : ¬ c.state = ConnState.closed := by simp [hopen]
  have hrecv : c.recv (Envelope.error a e)
      = ({ c with pending := c.pending.filter fun u => u.1 ≠ a },
         [Outcome.rejected a e]) := by
    unfold RequesterConnection.recv
    simp [hstate, ha]
  have hfind : (((c.pending.filter fun u => u.1 ≠ a)).find? fun t => t.1 = b)
      = some (b, acc) := by
    rw [find?_filter_ne _ _ _ hab]; exact hb
  refine ⟨by rw [hrecv], by rw [hrecv]; exact hopen, by rw [hrecv]; exact hfind, ?_⟩
  rw [hrecv]
  exact recv_complete_of_find _ b acc hstate hfind

/-- Witness for C5: with requests 0 and 1 pending, an error for request 0
rejects only request 0; request 1 still resolves with its own reply. -/
theorem C5_handler_failure_isolation_witness :
    ((⟨2, [(0, []), (1, [])], ConnState.opened⟩
        : RequesterConnection Nat Nat).recv (Envelope.error 0 42)).2
      = [Outcome.rejected 0 42] ∧
    ((⟨2, [(0, []), (1, [])], ConnState.opened⟩
        : RequesterConnection Nat Nat).recv (Envelope.error 0 42)).1.state
      = ConnState.opened ∧
    (((⟨2, [(0, []), (1, [])], ConnState.opened⟩
        : RequesterConnection Nat Nat).recv
          (Envelope.error 0 42)).1.pending.find? fun t => t.1 = 1)
      = some (1, []) ∧
    (((⟨2, [(0, []), (1, [])], ConnState.opened⟩
        : RequesterConnection Nat Nat).recv (Envelope.error 0 42)).1.recv
          (Envelope.complete 1)).2
      = [Outcome.resolved 1 []] :=
  C5_handler_failure_isolation _ 0 1 42 [] rfl (by decide) (by decide) (by decide)

/-- Modelled from the spec: the worker lifecycle states of a
Dispatcher-owned worker record, `Starting | Ready | Busy | Closed |
Crashed` (§3). -/
inductive WorkerState where
  | starting
  | ready
  | busy
  | closed
  | crashed
deriving DecidableEq

/-- Modelled from the spec: a Dispatcher-owned worker record (§3, §4.4).
`sendResult` models the settled result of `send(request)` on this
worker's exclusively-owned RequesterConnection: the ordered reply
payloads, or the error it was rejected with. -/
structure WorkerRecord (P E : Type) where
  id : Nat
  state : WorkerState
  sendResult : P → Except E (List P)

/-- Modelled from the spec: a worker is live when it is `Ready` or `Busy`
(§4.4, `broadcast`). -/
def WorkerRecord.isLive {P E : Type} (w : WorkerRecord P E) : Bool :=
  w.state = WorkerState.ready || w.state = WorkerState.busy

/-- Modelled from the spec: `broadcast(request)` calls `send()` on every
`Ready`/`Busy` worker and collects a mapping from worker id to its
result-or-error once all have settled; one worker's failure does not
cancel or alter any other worker's call (§4.4). -/
def broadcast {P E : Type} (pool : List (WorkerRecord P E)) (req : P) :
    List (Nat × Except E (List P)) :=
  (pool.filter fun w => w.isLive).map fun w => (w.id, w.sendResult req)

/-- Lookup in a worker-id-keyed mapping. -/
def lookupResult {γ : Type} (m : List (Nat × γ)) (k : Nat) : Option γ :=
  (m.find? fun p => p.1 = k).map Prod.snd

/-- Lookup of a member's key in a keyed map built by `List.map`, when the
keys are distinct. -/
theorem lookup_map_key {α γ : Type} (l : List α) (key : α → Nat) (f : α → γ)
    (w : α) (hw : w ∈ l) (hnd : (l.map key).Nodup) :
    lookupResult (l.map fun x => (key x, f x)) (key w) = some (f w) := by
  induction l with
  | nil => cases hw
  | cons x xs ih =>
    rcases List.mem_cons.mp hw with h | h
    · subst h
      simp [lookupResult, List.find?_cons_of_pos]
    · have hnd2 : (xs.map key).Nodup := (List.nodup_cons.mp hnd).2
      have hne : ¬ key x = key w := by
        intro hk
        exact (List.nodup_cons.mp hnd).1
          (by rw [hk]; exact List.mem_map_of_mem key h)
      have step : lookupResult ((x :: xs).map fun x => (key x, f x)) (key w)
          = lookupResult (xs.map fun x => (key x, f x)) (key w) := by
        simp only [List.map_cons, lookupResult]
        rw [List.find?_cons_of_neg _ (by simp [hne])]
      rw [step]
      exact ih h hnd2

/-- Claim C7: `broadcast(request)` yields a mapping with exactly one
entry per `Ready`/`Busy` worker; assuming worker ids are distinct, each
live worker's entry holds exactly that worker's own result-or-error, so
one worker's failure cannot alter any other worker's entry. -/
theorem C7_broadcast_aggregation {P E : Type} (pool : List (WorkerRecord P E))
    (req : P)
    (hnd : ((pool.filter fun w => w.isLive).map WorkerRecord.id).Nodup) :
    (broadcast pool req).length = (pool.filter fun w => w.isLive).length ∧
    ∀ w ∈ pool, w.isLive = true →
      lookupResult (broadcast pool req) w.id = some (w.sendResult req) := by
  constructor
  · simp [broadcast]
  · intro w hw hl
    have hwf : w ∈ pool.filter fun w => w.isLive :=
      List.mem_filter.mpr ⟨hw, hl⟩
    exact lookup_map_key _ WorkerRecord.id (fun x => x.sendResult req) w hwf hnd

/-- A pool of three live workers, the middle one failing, for the C7
witness. -/
def broadcastPool : List (WorkerRecord String String) :=
  [⟨1, WorkerState.ready, fun _ => Except.ok ["one"]⟩,
   ⟨2, WorkerState.busy, fun _ => Except.error "boom"⟩,
   ⟨3, WorkerState.ready, fun _ => Except.ok ["three"]⟩]

/-- Witness for C7: broadcasting to a pool of three workers yields three
entries, each worker's own result or error. -/
theorem C7_broadcast_aggregation_witness :
    (broadcast broadcastPool "cmd").length = 3 ∧
    lookupResult (broadcast broadcastPool "cmd") 1 = some (Except.ok ["one"]) ∧
    lookupResult (broadcast broadcastPool "cmd") 2
      = some (Except.error "boom") ∧
    lookupResult (broadcast broadcastPool "cmd") 3
      = some (Except.ok ["three"]) :=
  ⟨(C7_broadcast_aggregation broadcastPool "cmd" (by decide)).1.trans rfl,
   (C7_broadcast_aggregation broadcastPool "cmd" (by decide)).2 _
     (List.mem_cons_self _ _) rfl,
   (C7_broadcast_aggregation broadcastPool "cmd" (by decide)).2 _
     (List.mem_cons_of_mem _ (List.mem_cons_self _ _)) rfl,
   (C7_broadcast_aggregation broadcastPool "cmd" (by decide)).2 _
     (List.mem_cons_of_mem _ (List.mem_cons_of_mem _ (List.mem_cons_self _ _)))
     rfl⟩

/-- The screenshot-accumulating state of `Browser` (Browser.ts line 45,
initialized to the empty list in the constructor at line 60). -/
structure BrowserScreenshotState where
  screenshots : List String
deriving DecidableEq

/-- Embedding of `Browser.fetchScreenshots` (Browser.ts lines 560–564): copies the
accumulated screenshot paths, resets the `screenshots` field to the
empty list, and returns the copy. -/
def fetchScreenshots (b : BrowserScreenshotState) :
    List String × BrowserScreenshotState :=
  (b.screenshots, { b with screenshots := [] })

/-- Embedding of `Browser.saveScreenshot` (Browser.ts lines 566–583): the callback is
invoked with a fresh path; when it resolves `true` the path is appended
to `screenshots`, otherwise the state is untouched.  `fnResult` is the
boolean the callback resolved with. -/
def saveScreenshot (b : BrowserScreenshotState) (path : String)
    (fnResult : Bool) : BrowserScreenshotState :=
  if fnResult then { b with screenshots := b.screenshots ++ [path] } else b

/-- Claim C8: `fetchScreenshots` returns the paths accumulated so far and
resets the field to the empty list, so a second call with no intervening
`saveScreenshot` returns the empty list while the first call's return
value is the original accumulation, unchanged. -/
theorem C8_fetchScreenshots_returns_and_resets (b : BrowserScreenshotState) :
    (fetchScreenshots b).1 = b.screenshots ∧
    (fetchScreenshots b).2.screenshots = [] ∧
    (fetchScreenshots (fetchScreenshots b).2).1 = [] := by
  refine ⟨rfl, rfl, rfl⟩

/-- Embedding of the duration conversion of `Browser.wait` for numeric arguments
(Browser.ts lines 171–175).  `defaultMs` stands for
`DEFAULT_WAIT_TIMEOUT_MILLISECONDS`, imported from Settings.ts (not
under src/), kept abstract here. -/
def convertWaitTimeout (defaultMs : Int) (timeout : Int) : Int :=
  if timeout < 0 then defaultMs
  else if timeout < 1000 then timeout * 1000
  else timeout

/-- The argument forms of `Browser.wait` the claim covers: a number or a
string duration (Browser.ts lines 167–177). -/
inductive WaitArg where
  | num (n : Int)
  | str (s : String)

/-- Embedding of `Browser.wait` (Browser.ts lines 166–177) on numeric and string
arguments: sleeps for the computed duration, then resolves `true`.
`msOf` stands for the `ms` package's string-duration parser (external
dependency). -/
def wait (defaultMs : Int) (msOf : String → Int) : WaitArg → Int × Bool
  | .num n => (convertWaitTimeout defaultMs n, true)
  | .str s => (msOf s, true)

/-- Claim C9: for a numeric argument n, `wait` uses the default timeout
when n < 0, treats n as seconds (multiplying by 1000) when 0 ≤ n < 1000,
and as milliseconds when n ≥ 1000; for every numeric or string argument
it resolves with true. -/
theorem C9_wait_conversion (defaultMs : Int) (msOf : String → Int) (n : Int) :
    (n < 0 → (wait defaultMs msOf (WaitArg.num n)).1 = defaultMs) ∧
    (0 ≤ n → n < 1000 → (wait defaultMs msOf (WaitArg.num n)).1 = n * 1000) ∧
    (1000 ≤ n → (wait defaultMs msOf (WaitArg.num n)).1 = n) ∧
    (∀ a : WaitArg, (wait defaultMs msOf a).2 = true) := by
  refine ⟨?_, ?_, ?_, ?_⟩
  · intro h
    simp [wait, convertWaitTimeout, h]
  · intro h0 h1
    simp [wait, convertWaitTimeout, not_lt.mpr h0, h1]
  · intro h
    have h0 : (0 : Int) ≤ n := le_trans (by norm_num) h
    simp [wait, convertWaitTimeout, not_lt.mpr h0, not_lt.mpr h]
  · intro a
    cases a <;> rfl

/-- Witness for C9 at the three numeric regimes and a string argument. -/
theorem C9_wait_conversion_witness :
    (wait 30000 (fun _ => 7) (WaitArg.num (-5))).1 = 30000 ∧
    (wait 30000 (fun _ => 7) (WaitArg.num 3)).1 = 3000 ∧
    (wait 30000 (fun _ => 7) (WaitArg.num 2000)).1 = 2000 ∧
    (wait 30000 (fun _ => 7) (WaitArg.str "1s")).2 = true :=
  ⟨(C9_wait_conversion 30000 (fun _ => 7) (-5)).1 (by norm_num),
   ((C9_wait_conversion 30000 (fun _ => 7) 3).2.1 (by norm_num)
     (by norm_num)).trans (by norm_num),
   (C9_wait_conversion 30000 (fun _ => 7) 2000).2.2.1 (by norm_num),
   (C9_wait_conversion 30000 (fun _ => 7) 0).2.2.2 (WaitArg.str "1s")⟩

/-- The dynamic string-keyed property table of the `Runner` object, each
property holding a string-keyed array of step-summary lists, as the field
`summaryIteration` is used in Runner.ts (declared line 43, written under
key "Iteration N" at line 151).  A step summary is kept opaque as a
string. -/
structure RunnerState where
  props : List (String × List (String × List String))
deriving DecidableEq

/-- Reading a JavaScript property `this.<name>`: `some` when the property
has been declared or assigned, `none` (undefined) otherwise. -/
def RunnerState.getProp (r : RunnerState) (name : String) :
    Option (List (String × List String)) :=
  (r.props.find? fun p => p.1 = name).map Prod.snd

/-- Overwriting the value of an existing property. -/
def RunnerState.setProp (r : RunnerState) (name : String)
    (v : List (String × List String)) : RunnerState :=
  { props := r.props.map fun p => if p.1 = name then (p.1, v) else p }

/-- The `Runner` as constructed: `summaryIteration` is its only declared
property relevant here, initialized to the empty array
(Runner.ts line 43). -/
def RunnerState.init : RunnerState :=
  { props := [("summaryIteration", [])] }

/-- The per-iteration write of `Runner.runTestScript` (Runner.ts
line 151), which stores the iteration's step summary under the key
"Iteration N" of the property named `summaryIteration`. -/
def RunnerState.recordIteration (r : RunnerState) (iteration : Nat)
    (steps : List String) : RunnerState :=
  match r.getProp "summaryIteration" with
  | some m =>
    r.setProp "summaryIteration"
      ((m.filter fun kv => kv.1 ≠ "Iteration " ++ toString iteration) ++
        [("Iteration " ++ toString iteration, steps)])
  | none => r

/-- The steps lookup of `Runner.summarizeIteration` (Runner.ts lines
229–230): it reads the property named `summaryIteraion` — note the
spelling — and then indexes it and iterates with `forEach`.  Reading a
key of an undefined property value throws, and `forEach` on an undefined
entry throws, so both paths are errors. -/
def RunnerState.summarizeIterationSteps (r : RunnerState) (iteration : Nat) :
    Except String (List String) :=
  match r.getProp "summaryIteraion" with
  | none => Except.error "TypeError: this.summaryIteraion is undefined"
  | some m =>
    match m.find? fun kv => kv.1 = "Iteration " ++ toString iteration with
    | some kv => Except.ok kv.2
    | none => Except.error "TypeError: steps is undefined"

/-- Updating one property leaves reads of any other property unchanged. -/
theorem find?_map_setEntry {γ : Type} (l : List (String × γ))
    (name name2 : String) (v : γ) (h : ¬ name2 = name) :
    ((l.map fun p => if p.1 = name then (p.1, v) else p).find?
        fun p => p.1 = name2)
      = l.find? fun p => p.1 = name2 := by
  induction l with
  | nil => rfl
  | cons x xs ih =>
    by_cases hx : x.1 = name
    · have hx2 : ¬ x.1 = name2 := fun hc => h (hc.symm.trans hx)
      rw [List.map_cons, if_pos hx, List.find?_cons_of_neg _ (by simp [hx2]),
        List.find?_cons_of_neg _ (by simp [hx2]), ih]
    · by_cases hx2 : x.1 = name2
      · rw [List.map_cons, if_neg hx, List.find?_cons_of_pos _ (by simp [hx2]),
          List.find?_cons_of_pos _ (by simp [hx2])]
      · rw [List.map_cons, if_neg hx, List.find?_cons_of_neg _ (by simp [hx2]),
          List.find?_cons_of_neg _ (by simp [hx2]), ih]

/-- Lemma: `recordIteration` never creates or changes the property named
`summaryIteraion`. -/
theorem getProp_summaryIteraion_recordIteration (r : RunnerState)
    (iteration : Nat) (steps : List String) :
    (r.recordIteration iteration steps).getProp "summaryIteraion"
      = r.getProp "summaryIteraion" := by
  unfold RunnerState.recordIteration
  cases hm : r.getProp "summaryIteration" with
  | none => rfl
  | some m =>
    show (r.setProp _ _).getProp _ = _
    unfold RunnerState.setProp RunnerState.getProp
    exact congrArg (Option.map Prod.snd)
      (find?_map_setEntry r.props _ _ _ (by decide))

/-- Claim C10: `runTestScript` stores each iteration's step summary under
the field `summaryIteration`, but `summarizeIteration` reads the
differently spelled field `summaryIteraion`, which no sequence of
recorded iterations ever assigns; so after any run, for every iteration
number, the read of `summaryIteraion` yields undefined, and the steps
lookup with its subsequent `forEach` cannot succeed. -/
theorem C10_summaryIteraion_typo (ops : List (Nat × List String))
    (iteration : Nat) :
    (ops.foldl (fun r op => r.recordIteration op.1 op.2)
        RunnerState.init).getProp "summaryIteraion" = none ∧
    (ops.foldl (fun r op => r.recordIteration op.1 op.2)
        RunnerState.init).summarizeIterationSteps iteration
      = Except.error "TypeError: this.summaryIteraion is undefined" := by
  have main : ∀ (l : List (Nat × List String)) (r : RunnerState),
      (l.foldl (fun r op => r.recordIteration op.1 op.2) r).getProp
        "summaryIteraion" = r.getProp "summaryIteraion" := by
    intro l
    induction l with
    | nil => intro r; rfl
    | cons op rest ih =>
      intro r
      rw [List.foldl_cons, ih, getProp_summaryIteraion_recordIteration]
  have hnone : (ops.foldl (fun r op => r.recordIteration op.1 op.2)
      RunnerState.init).getProp "summaryIteraion" = none :=
    (main ops RunnerState.init).trans (by decide)
  refine ⟨hnone, ?_⟩
  unfold RunnerState.summarizeIterationSteps
  rw [hnone]
